import Mathlib

/-!
Shallow embedding of the tenant-provisioning control plane
(`scripts/admin_api.py` and `scripts/tenant_utils.py`).

Python strings are modelled as Lean `String` (operating on `String.data`
where character-level work is needed); character classes such as
`[a-zA-Z0-9]` are ASCII ranges, matching the Python regex literals.
External effects (subprocess invocations, filesystem and container-runtime
operations) are modelled by explicit oracles (records describing the
outcome of each external call) together with an `Effect` trace listing the
external operations the code performs, in order.
-/

/-- ASCII alphanumeric, the character class `[a-zA-Z0-9]`.
`Char.isAlpha`/`Char.isDigit` are exactly the ASCII ranges. -/
def isAsciiAlnum (c : Char) : Bool := c.isAlpha || c.isDigit

/-- The interior character class `[a-zA-Z0-9.-]` of the site-name regex. -/
def isNameMid (c : Char) : Bool := isAsciiAlnum c || c == '.' || c == '-'

/-- Matcher for the regex fragment `[a-zA-Z0-9.-]*[a-zA-Z0-9]` applied to the
whole list: since `[a-zA-Z0-9]` consumes exactly one character, a full match
forces every character but the last into the middle class and the last into
the alphanumeric class. -/
def nameTail : List Char → Bool
  | [] => false
  | [c] => isAsciiAlnum c
  | c :: c' :: rest => isNameMid c && nameTail (c' :: rest)

/-- Full-string matcher for `[a-zA-Z0-9][a-zA-Z0-9.-]*[a-zA-Z0-9]` (both ends
anchored strictly). -/
def regexCore (cs : List Char) : Bool :=
  match cs with
  | [] => false
  | c :: rest => isAsciiAlnum c && nameTail rest

/-- Python `re.match(r"^[a-zA-Z0-9][a-zA-Z0-9.-]*[a-zA-Z0-9]$", s)` truthiness
(`admin_api.py` lines 117 and 186).  In Python (without `re.MULTILINE`) the
`$` anchor matches at the end of the string or just before a single newline
at the end of the string, so a match may leave one trailing `'\n'`
unconsumed. -/
def validate_site_name (s : String) : Bool :=
  regexCore s.data ||
    (match s.data.getLast? with
     | some c => c == '\n' && regexCore s.data.dropLast
     | none => false)

/-- The spec's description of the accepted language, written from its words:
length at least 2, first and last characters alphanumeric, every interior
character alphanumeric, hyphen or period. -/
def specNameMatch (cs : List Char) : Bool :=
  decide (2 ≤ cs.length) &&
  (match cs.head? with | some c => isAsciiAlnum c | none => false) &&
  (match cs.getLast? with | some c => isAsciiAlnum c | none => false) &&
  ((cs.drop 1).dropLast.all isNameMid)

/-- Remove at most one trailing newline (the slack Python's `$` allows). -/
def stripOneTrailingNewline (cs : List Char) : List Char :=
  match cs.getLast? with
  | some c => if c == '\n' then cs.dropLast else cs
  | none => cs

/-- Python `str.strip()` restricted to ASCII whitespace (the repository only
ever strips ASCII text). -/
def pyStrip (s : String) : String :=
  String.mk ((s.data.dropWhile Char.isWhitespace).reverse.dropWhile
    Char.isWhitespace).reverse

/-- Digit run as accepted by Python `int`: digits possibly separated by
single underscores, never leading, trailing or doubled. -/
def pyDigitRun : List Char → Bool
  | [] => false
  | [c] => c.isDigit
  | c :: '_' :: rest => c.isDigit && pyDigitRun rest
  | c :: c' :: rest => c.isDigit && pyDigitRun (c' :: rest)

/-- Numeric value of a digit run (underscores removed). -/
def digitsVal (cs : List Char) : Nat :=
  (cs.filter (· != '_')).foldl (fun a c => a * 10 + (c.toNat - 48)) 0

/-- Python `int(s)` on a decimal string: strips whitespace, allows one sign,
then a digit run; `none` models `ValueError`.  (Only ASCII digits and
whitespace are modelled.) -/
def pyInt (s : String) : Option Int :=
  match (pyStrip s).data with
  | '+' :: rest => if pyDigitRun rest then some (Int.ofNat (digitsVal rest)) else none
  | '-' :: rest => if pyDigitRun rest then some (-(Int.ofNat (digitsVal rest))) else none
  | rest => if pyDigitRun rest then some (Int.ofNat (digitsVal rest)) else none

/-- `tenant_utils._parse_port`: `int(val) if val and str(val).strip() else
default`, with `ValueError`/`TypeError` giving the default. -/
def parse_port (val : String) (dflt : Int) : Int :=
  if val == "" || pyStrip val == "" then dflt
  else match pyInt val with
       | some n => n
       | none => dflt

/-- The environment variables `resolve_tenant_port` reads, each defaulting to
`""` as `os.environ.get(name, "")` does. -/
structure PortEnv where
  httpPublishPort : String
  frappeSiteNameHeader : String
  tenant2SiteName : String
  tenant2HttpPort : String
  tenant3SiteName : String
  tenant3HttpPort : String
  tenantPorts : String
deriving DecidableEq

/-- Python `pair.rsplit(":", 1)` on a string known to contain a colon:
split at the last colon. -/
def rsplitColon (s : String) : String × String :=
  let rev := s.data.reverse
  (String.mk ((rev.dropWhile (· != ':')).drop 1).reverse,
   String.mk (rev.takeWhile (· != ':')).reverse)

/-- The `TENANT_PORTS` scanning loop of `resolve_tenant_port` (lines
372-379): first pair whose stripped site matches and whose parsed port is
truthy wins. -/
def tenantPortsLookup (site : String) (dflt : Int) : List String → Option Int
  | [] => none
  | pair :: rest =>
    let p := pyStrip pair
    if p.data.contains ':' then
      let sp := rsplitColon p
      if pyStrip sp.1 == site then
        let port := parse_port (pyStrip sp.2) dflt
        if port != 0 then some port else tenantPortsLookup site dflt rest
      else tenantPortsLookup site dflt rest
    else tenantPortsLookup site dflt rest

/-- `tenant_utils.resolve_tenant_port` (lines 355-380). -/
def resolve_tenant_port (env : PortEnv) (site : String) : Int :=
  let dflt := parse_port env.httpPublishPort 8080
  if site == env.frappeSiteNameHeader then dflt
  else if site == env.tenant2SiteName then parse_port env.tenant2HttpPort 8081
  else if site == env.tenant3SiteName then parse_port env.tenant3HttpPort 8082
  else match tenantPortsLookup site dflt (env.tenantPorts.splitOn ",") with
       | some p => p
       | none => dflt

/-- JSON-like values: the Python dicts these functions build and return.
`jnull` is Python `None`, `jobj` a dict (ordered association list, keys
unique as produced by the code). -/
inductive JVal where
  | str (s : String)
  | jbool (b : Bool)
  | jint (n : Int)
  | jnull
  | jlist (xs : List JVal)
  | jobj (fields : List (String × JVal))

/-- A Python dict, as an ordered association list. -/
abbrev JObj := List (String × JVal)

/-- `d.get(k)` / key lookup on a dict. -/
def jGet (d : JObj) (k : String) : Option JVal :=
  match d.find? (fun kv => kv.1 == k) with
  | some kv => some kv.2
  | none => none

/-- `d.get(k, dflt)`. -/
def jGetD (d : JObj) (k : String) (dflt : JVal) : JVal :=
  match jGet d k with
  | some v => v
  | none => dflt

/-- Python truthiness of a JSON-like value. -/
def jTruthy : JVal → Bool
  | .str s => s != ""
  | .jbool b => b
  | .jint n => n != 0
  | .jnull => false
  | .jlist xs => !xs.isEmpty
  | .jobj fs => !fs.isEmpty

/-- `d[k] = v` on a dict: replace the value if the key is present, else
append the pair. -/
def jSet (d : JObj) (k : String) (v : JVal) : JObj :=
  match d with
  | [] => [(k, v)]
  | kv :: rest => if kv.1 == k then (k, v) :: rest else kv :: jSet rest k v

/-- External operations the code performs, recorded in order. -/
inductive Effect where
  | benchNewSite (site : String)
  | benchInstallApp (site : String)
  | benchExecute (site : String)
  | benchDropSite (site : String) (noBackup : Bool)
  | runShellScript (site : String)
  | fsUnlink (path : String)
  | fsListDir (path : String)
  | dockerRunContainer (name : String) (port : Int)
  | dockerRemoveForce (name : String)
  | dockerStop (name : String)
  | dockerRemove (name : String)
deriving DecidableEq

/-- Outcome of one external process (`subprocess.run`): exit code plus
captured streams. -/
structure ProcResult where
  returncode : Int
  stdout : String
  stderr : String
deriving DecidableEq

/-- Python `a or b` for strings. -/
def pyOrStr (a b : String) : String := if a != "" then a else b

/-- A container as seen through the runtime client: name, identity, status,
the host ports in its `HostConfig.PortBindings`, its
`com.docker.compose.service` label if any, and its network names. -/
structure ContainerInfo where
  name : String
  cid : String
  status : String
  hostPorts : List Int
  composeService : Option String
  networks : List String
deriving DecidableEq

/-- Outcome of `client.containers.run` for a new frontend container. -/
inductive RunOutcome where
  | created (cid : String)
  | imageNotFound
  | apiError (msg : String)
deriving DecidableEq

/-- The container-runtime world plus the outcomes of the fallible client
calls: whether the SDK is importable, whether `docker.from_env()` succeeds
(`connectErr` holds the exception text when it fails), the containers and
networks visible, the outcome of a container `run`, and the exception text
if `stop`/`remove` fails during detach. -/
structure DockerState where
  sdkAvailable : Bool
  connectOk : Bool
  connectErr : String
  containers : List ContainerInfo
  networks : List String
  runOutcome : RunOutcome
  stopRemoveErr : Option String
deriving DecidableEq

/-- Environment variables read by `create_frontend_for_tenant`, `none`
meaning unset so the code's default applies. -/
structure FrontendEnv where
  frontendImage : Option String
  dockerNetwork : Option String
  dockerSitesVolume : Option String
deriving DecidableEq

/-- Python `str.lower()` restricted to ASCII (site names are ASCII). -/
def pyLower (s : String) : String := String.mk (s.data.map Char.toLower)

/-- One step of `re.sub(r"[^a-z0-9-]", "-", ·)`. -/
def sanitizeChar (c : Char) : Char :=
  if ('a' ≤ c && c ≤ 'z') || ('0' ≤ c && c ≤ '9') || c == '-' then c else '-'

/-- Python `str.strip("-")`. -/
def stripHyphens (cs : List Char) : List Char :=
  ((cs.dropWhile (· == '-')).reverse.dropWhile (· == '-')).reverse

/-- `tenant_utils._sanitize_service_name` (line 40-42): lowercase, replace
every character outside `[a-z0-9-]` with `-`, strip hyphens, fall back to
`"tenant"` when empty. -/
def sanitize_service_name (site : String) : String :=
  let core := stripHyphens ((pyLower site).data.map sanitizeChar)
  if core.isEmpty then "tenant" else String.mk core

/-- The deterministic frontend service name for a tenant. -/
def frontendServiceName (site : String) : String :=
  "frontend-tenant-" ++ sanitize_service_name site

/-- An error return `{"ok": False, "error": msg}`. -/
def errObj (msg : String) : JObj := [("ok", .jbool false), ("error", .str msg)]

/-- The three-tier backend discovery of `create_frontend_for_tenant` (lines
91-111): exact name `"backend"`, then the compose service label, then the
name-pattern scan. -/
def findBackend (cs : List ContainerInfo) : Option ContainerInfo :=
  match cs.find? (fun c => c.name == "backend") with
  | some c => some c
  | none =>
    match cs.find? (fun c => c.composeService == some "backend") with
    | some c => some c
    | none => cs.find? (fun c => c.name.endsWith "-backend-1" || c.name == "backend")

/-- `tenant_utils.create_frontend_for_tenant` (lines 45-192), with `image`,
`network` and `sites_volume` left at their `None` defaults as every caller
in the repository does.  Returns the result dict and the trace of mutating
container operations. -/
def create_frontend_for_tenant (fenv : FrontendEnv) (st : DockerState)
    (site : String) (port : Int) : JObj × List Effect :=
  if !st.sdkAvailable then
    (errObj "Docker SDK not installed. Use admin-api image with docker package for frontend creation.", [])
  else
    let service_name := frontendServiceName site
    let image := fenv.frontendImage.getD "frappe/erpnext:version-15"
    let network_name := fenv.dockerNetwork.getD "frappe_docker_default"
    if !st.connectOk then (errObj ("Cannot connect to Docker: " ++ st.connectErr), [])
    else
      match findBackend st.containers with
      | none => (errObj "Backend container not found. Start the stack first.", [])
      | some backend =>
        if backend.status != "running" then
          (errObj ("Backend container is not running (status: " ++ backend.status ++
            "). Start the stack first."), [])
        else
          let resolved_network :=
            match backend.networks with
            | [] => network_name
            | n :: _ => n
          if !st.networks.contains resolved_network then
            (errObj ("Network '" ++ resolved_network ++
              "' not found. Check DOCKER_NETWORK env var or ensure backend is on the expected network."), [])
          else
            match st.containers.find? (fun c => c.hostPorts.contains port) with
            | some holder =>
              (errObj ("Port " ++ toString port ++ " is already in use by container '" ++
                holder.name ++ "'. Please use a different port."), [])
            | none =>
              let afterExisting : List Effect :=
                match st.containers.find? (fun c => c.name == service_name) with
                | some existing =>
                  if existing.status == "running" then []
                  else [Effect.dockerRemoveForce service_name]
                | none => []
              match st.containers.find? (fun c => c.name == service_name) with
              | some existing =>
                if existing.status == "running" then
                  ([("ok", .jbool true), ("container_id", .str existing.cid),
                    ("service_name", .str service_name)], [])
                else
                  match st.runOutcome with
                  | .created cid =>
                    ([("ok", .jbool true), ("container_id", .str cid),
                      ("service_name", .str service_name)],
                     afterExisting ++ [Effect.dockerRunContainer service_name port])
                  | .imageNotFound =>
                    (errObj ("Image not found: " ++ image), afterExisting)
                  | .apiError msg => (errObj msg, afterExisting)
              | none =>
                match st.runOutcome with
                | .created cid =>
                  ([("ok", .jbool true), ("container_id", .str cid),
                    ("service_name", .str service_name)],
                   [Effect.dockerRunContainer service_name port])
                | .imageNotFound => (errObj ("Image not found: " ++ image), [])
                | .apiError msg => (errObj msg, [])

/-- `tenant_utils.remove_frontend_for_tenant` (lines 195-221). -/
def remove_frontend_for_tenant (st : DockerState) (site : String) :
    JObj × List Effect :=
  if !st.sdkAvailable then (errObj "Docker SDK not installed.", [])
  else if !st.connectOk then (errObj st.connectErr, [])
  else
    let service_name := frontendServiceName site
    match st.containers.find? (fun c => c.name == service_name) with
    | none => ([("ok", .jbool true), ("removed", .jbool false)], [])
    | some _ =>
      match st.stopRemoveErr with
      | some msg => (errObj msg, [Effect.dockerStop service_name])
      | none =>
        ([("ok", .jbool true), ("removed", .jbool true)],
         [Effect.dockerStop service_name, Effect.dockerRemove service_name])

/-- Outcome of reading back the temporary credential file: an `OSError`
while opening/reading, a `json.JSONDecodeError`, or a parsed JSON object
(the generator script always writes an object with string values). -/
inductive TmpOutcome where
  | readError
  | parseError
  | parsed (d : List (String × String))
deriving DecidableEq

/-- `d.get(k, dflt)` on a string-valued dict. -/
def sGetD (d : List (String × String)) (k dflt : String) : String :=
  match d.find? (fun kv => kv.1 == k) with
  | some kv => kv.2
  | none => dflt

/-- Oracles for the external calls `tenant_utils.create_tenant` makes: the
three bench invocations, the state of the temporary credential file, its
uuid-based name, and the container-runtime world for the optional frontend
step. -/
structure TenantCreateEnv where
  newSite : ProcResult
  installApp : ProcResult
  genKeys : ProcResult
  tmpExists : Bool
  tmpOutcome : TmpOutcome
  tmpFileName : String
  frontendEnv : FrontendEnv
  dockerState : DockerState

/-- `d.get(k, dflt)` where the use site formats the value into an f-string;
all dicts reaching it in this code hold a string there. -/
def jGetStrD (d : JObj) (k : String) (dflt : String) : String :=
  match jGet d k with
  | some (.str s) => s
  | some _ => dflt
  | none => dflt

/-- `tenant_utils.create_tenant` (lines 224-352).  `db_password` is passed
into the external command line and does not influence control flow. -/
def tenant_utils_create_tenant (env : TenantCreateEnv) (penv : PortEnv)
    (site admin_password db_password : String) (port : Option Int)
    (create_frontend : Bool) : JObj × List Effect :=
  let _ := db_password
  let e1 := [Effect.benchNewSite site]
  if env.newSite.returncode != 0 then
    (errObj (pyStrip (pyOrStr env.newSite.stderr (pyOrStr env.newSite.stdout "new-site failed"))), e1)
  else
    let e2 := e1 ++ [Effect.benchInstallApp site]
    if env.installApp.returncode != 0 then
      (errObj (pyStrip (pyOrStr env.installApp.stderr (pyOrStr env.installApp.stdout "install-app failed"))), e2)
    else
      let e3 := e2 ++ [Effect.benchExecute site]
      let keys :=
        if env.genKeys.returncode == 0 && env.tmpExists then
          match env.tmpOutcome with
          | .parsed d => (sGetD d "api_key" "", sGetD d "api_secret" "")
          | _ => ("", "")
        else ("", "")
      let e4 := e3 ++ [Effect.fsUnlink env.tmpFileName]
      let api_key := keys.1
      let api_secret := keys.2
      let resolved_port :=
        match port with
        | some p => p
        | none => resolve_tenant_port penv site
      let successObj (fc : JVal) : JObj :=
        [("ok", .jbool true), ("site_name", .str site), ("port", .jint resolved_port),
         ("frontend_created", fc),
         ("credentials", .jobj
           [("username", .str "Administrator"), ("password", .str admin_password),
            ("api_key", .str api_key), ("api_secret", .str api_secret),
            ("token",
             if api_key != "" && api_secret != "" then
               .str ("token " ++ api_key ++ ":" ++ api_secret)
             else .jnull)])]
      if create_frontend && resolved_port != 0 then
        let fr := create_frontend_for_tenant env.frontendEnv env.dockerState site resolved_port
        let res :=
          if !(jTruthy (jGetD fr.1 "ok" .jnull)) then
            [("ok", .jbool false),
             ("error", .str ("Tenant created but frontend failed: " ++
               jGetStrD fr.1 "error" "Unknown error")),
             ("site_name", .str site), ("port", .jint resolved_port)]
          else successObj (jGetD fr.1 "ok" (.jbool false))
        (res, e4 ++ fr.2)
      else (successObj (.jbool false), e4)

/-- Substring occurrence on character lists (Python `s in l`). -/
def listInfix (pat : List Char) : List Char → Bool
  | [] => pat.isEmpty
  | c :: rest => pat.isPrefixOf (c :: rest) || listInfix pat rest

/-- The progress-log markers filtered out of a failed `create-tenant.sh`
run's diagnostics (`admin_api.py` line 164). -/
def skipMarkers : List String :=
  ["[=", "Updating DocTypes", "Updating customizations", "Updating Dashboard",
   "Installing "]

/-- The whole configuration and external-world oracle the admin API reads:
environment secrets, availability of the `tenant_utils` import, oracles for
the shell-fallback path, JSON parsing (`json.loads` restricted to object
results; a decode failure is `none`), the drop-site command, directory
enumeration, and the container runtime. -/
structure AdminEnv where
  adminApiKey : String
  dbPassword : String
  tenantUtilsAvailable : Bool
  tenantCreateEnv : TenantCreateEnv
  portEnv : PortEnv
  shellScriptExists : Bool
  shellResult : ProcResult
  parseJson : String → Option JObj
  dropSite : ProcResult
  listDirResult : Except String (List String)
  isTenantDir : String → Bool
  dockerState : DockerState

/-- `admin_api._ensure_port` (lines 39-42): add a `port` key to a successful
result lacking one; `available` is whether `resolve_tenant_port` was
imported. -/
def ensure_port (available : Bool) (penv : PortEnv) (res : JObj) (site : String) : JObj :=
  if jTruthy (jGetD res "ok" .jnull) && (jGet res "port").isNone then
    jSet res "port" (.jint (if available then resolve_tenant_port penv site else 8080))
  else res

/-- Scan of the fallback script's stdout lines, last line first
(`admin_api.py` lines 170-181): first line starting with a brace that
parses as JSON decides the result. -/
def scanStdoutLines (A : AdminEnv) (site : String) : List String → JObj
  | [] => errObj "Could not parse credentials from create-tenant.sh"
  | l :: rest =>
    let line := pyStrip l
    if line.startsWith "\x7b" then
      match A.parseJson line with
      | some data =>
        if jTruthy (jGetD data "ok" .jnull) then ensure_port false A.portEnv data site
        else [("ok", .jbool false), ("error", jGetD data "error" (.str "Unknown error"))]
      | none => scanStdoutLines A site rest
    else scanStdoutLines A site rest

/-- The diagnostic text a failed `create-tenant.sh` run surfaces
(`admin_api.py` lines 160-167): stderr else stdout, stripped, split into
lines, progress-log lines filtered out, last five lines kept, joined, and
capped at 300 characters. -/
def fallbackErrorText (r : ProcResult) : String :=
  let err := pyStrip (pyOrStr r.stderr (pyOrStr r.stdout ""))
  let lines := (err.splitOn "\n").filter (fun l =>
    pyStrip l != "" && !(skipMarkers.any (fun s => listInfix s.data l.data)))
  let concise :=
    if lines.isEmpty then
      "Tenant creation failed. Check admin-api container logs for details."
    else String.intercalate "\n" (lines.drop (lines.length - 5))
  if concise.length > 300 then String.mk (concise.data.take 300) else concise

/-- `admin_api.create_tenant` (lines 110-181): validation and configuration
checks, then the `tenant_utils` path when importable, else the
`create-tenant.sh` fallback with filtered, length-capped diagnostics. -/
def admin_create_tenant (A : AdminEnv) (site admin_password : String)
    (port : Option Int) (create_frontend : Bool) : JObj × List Effect :=
  if !validate_site_name site then (errObj "Invalid site name", [])
  else if A.dbPassword == "" then (errObj "DB_PASSWORD not configured", [])
  else if create_frontend &&
      (match port with
       | none => true
       | some p => decide (p < 1) || decide (65535 < p)) then
    (errObj "port required and must be 1-65535 when create_frontend is true", [])
  else if create_frontend && !A.tenantUtilsAvailable then
    (errObj "create_frontend requires tenant_utils (Python path)", [])
  else if A.tenantUtilsAvailable then
    let r := tenant_utils_create_tenant A.tenantCreateEnv A.portEnv site
      admin_password A.dbPassword port create_frontend
    (ensure_port true A.portEnv r.1 site, r.2)
  else if !A.shellScriptExists then
    (errObj "create-tenant.sh not found (mount scripts in compose)", [])
  else
    let e := [Effect.runShellScript site]
    if A.shellResult.returncode != 0 then
      (errObj (fallbackErrorText A.shellResult), e)
    else
      (scanStdoutLines A site
        (((pyStrip A.shellResult.stdout).splitOn "\n").reverse), e)

/-- `admin_api.delete_tenant` (lines 184-213). -/
def admin_delete_tenant (A : AdminEnv) (site : String)
    (no_backup remove_frontend : Bool) : JObj × List Effect :=
  if !validate_site_name site then (errObj "Invalid site name", [])
  else
    let fr :=
      if remove_frontend && A.tenantUtilsAvailable then
        some (remove_frontend_for_tenant A.dockerState site)
      else none
    let frontend_removed : JVal :=
      match fr with
      | some r => jGetD r.1 "removed" (.jbool false)
      | none => .jbool false
    let e1 := (match fr with | some r => r.2 | none => []) ++
      [Effect.benchDropSite site no_backup]
    if A.dropSite.returncode != 0 then
      (errObj (pyOrStr A.dropSite.stderr (pyOrStr A.dropSite.stdout "drop-site failed")), e1)
    else
      ([("ok", .jbool true), ("site_name", .str site),
        ("message", .str "Tenant deleted"), ("frontend_removed", frontend_removed)], e1)

/-- The non-tenant entries `list_tenants` skips (`admin_api.py` line 100). -/
def reservedSiteEntries : List String :=
  ["assets", "common_site_config.json", "apps.txt", "currentsite.txt"]

/-- `admin_api.list_tenants` (lines 94-107): enumerate the sites directory
(sorted), keep entries that are directories holding a `site_config.json`. -/
def list_tenants (A : AdminEnv) : JObj × List Effect :=
  match A.listDirResult with
  | .error e => (errObj e, [Effect.fsListDir "/home/frappe/frappe-bench/sites"])
  | .ok names =>
    let tenants := (names.mergeSort (fun a b => a ≤ b)).filter (fun n =>
      !(n.startsWith ".") && !(reservedSiteEntries.contains n) && A.isTenantDir n)
    ([("ok", .jbool true), ("tenants", .jlist (tenants.map .str)),
      ("count", .jint tenants.length)],
     [Effect.fsListDir "/home/frappe/frappe-bench/sites"])

/-- One HTTP request as the handlers see it: the raw request path (query
string included), the two authentication headers (`none` = absent), the
declared content length and the decoded body text. -/
structure Request where
  path : String
  xAdminApiKey : Option String
  authorization : Option String
  contentLength : Int
  body : String

/-- An HTTP response: status code and JSON body. -/
structure HttpResponse where
  status : Int
  body : JObj

/-- `admin_api.require_auth` (lines 63-71). -/
def require_auth (A : AdminEnv) (req : Request) : Bool :=
  if A.adminApiKey == "" then false
  else
    let key := match req.xAdminApiKey with | some k => k | none => ""
    let auth := match req.authorization with | some a => a | none => ""
    let key := if auth.startsWith "Bearer " then pyOrStr key (auth.drop 7) else key
    key == A.adminApiKey

/-- `admin_api.read_json_body` (lines 82-91): `none` models both a missing
body and a JSON decode failure; a whitespace-only body yields the empty
dict. -/
def read_json_body (A : AdminEnv) (req : Request) : Option JObj :=
  if req.contentLength ≤ 0 then none
  else if pyStrip req.body == "" then some []
  else A.parseJson req.body

/-- `AdminAPIHandler.do_GET` (lines 220-232). -/
def do_GET (A : AdminEnv) (req : Request) : HttpResponse × List Effect :=
  if req.path == "/" || req.path == "/health" || req.path == "/admin/health" then
    ({ status := 200, body := [("status", .str "ok"), ("service", .str "admin-api")] }, [])
  else if req.path == "/admin/tenant" then
    if !require_auth A req then
      ({ status := 401, body := [("error", .str "Unauthorized")] }, [])
    else
      let r := list_tenants A
      ({ status := if jTruthy (jGetD r.1 "ok" .jnull) then 200 else 500,
         body := r.1 }, r.2)
  else ({ status := 404, body := [("error", .str "Not found")] }, [])

/-- Python `body.get(k) or ""` for the string-valued body fields the POST
handler reads (a non-string truthy value would raise in Python; the
handlers are modelled for string-valued fields). -/
def jStrOrEmpty : Option JVal → String
  | some (.str s) => s
  | _ => ""

/-- The coercion `int(body.get("port"))` with `TypeError`/`ValueError`
giving `None` (lines 253-258). -/
def coerce_port : Option JVal → Option Int
  | none => none
  | some (.jint n) => some n
  | some (.str s) => pyInt s
  | some (.jbool b) => some (if b then 1 else 0)
  | some .jnull => none
  | some (.jlist _) => none
  | some (.jobj _) => none

/-- `AdminAPIHandler.do_POST` (lines 234-264). -/
def do_POST (A : AdminEnv) (req : Request) : HttpResponse × List Effect :=
  if req.path == "/admin/tenant" then
    if !require_auth A req then
      ({ status := 401, body := [("error", .str "Unauthorized")] }, [])
    else
      match read_json_body A req with
      | none => ({ status := 400, body := [("error", .str "JSON body required")] }, [])
      | some body =>
        if body.isEmpty then
          ({ status := 400, body := [("error", .str "JSON body required")] }, [])
        else
          let site_name := pyStrip (jStrOrEmpty (jGet body "site_name"))
          let admin_password := jStrOrEmpty (jGet body "admin_password")
          if site_name == "" || admin_password == "" then
            ({ status := 400,
               body := [("error", .str "site_name and admin_password required")] }, [])
          else if A.dbPassword == "" then
            ({ status := 500, body := [("error", .str "DB_PASSWORD not configured")] }, [])
          else
            let port := coerce_port (jGet body "port")
            let create_frontend := jTruthy (jGetD body "create_frontend" (.jbool false))
            let r := admin_create_tenant A site_name admin_password port create_frontend
            ({ status := if jTruthy (jGetD r.1 "ok" .jnull) then 201 else 400,
               body := r.1 }, r.2)
  else ({ status := 404, body := [("error", .str "Not found")] }, [])

/-- `urlparse(path).path`: the part before the first question mark.
(Fragments and percent-encoding do not occur in the modelled requests.) -/
def urlPath (p : String) : String := String.mk (p.data.takeWhile (· != '?'))

/-- `urlparse(path).query`: the part after the first question mark. -/
def urlQuery (p : String) : String :=
  String.mk ((p.data.dropWhile (· != '?')).drop 1)

/-- `urllib.parse.parse_qs` over `&`-separated fields, keeping only fields
with a nonempty value after the first `=` (blank values are dropped by
default); percent-decoding is not modelled. -/
def parse_qs (q : String) : List (String × String) :=
  (q.splitOn "&").filterMap (fun field =>
    let name := String.mk (field.data.takeWhile (· != '='))
    let value := String.mk ((field.data.dropWhile (· != '=')).drop 1)
    if field.data.contains '=' && value != "" then some (name, value) else none)

/-- `qs.get(k, [dflt])[0]`: first value bound to the key. -/
def qsGetD (qs : List (String × String)) (k dflt : String) : String :=
  match qs.find? (fun kv => kv.1 == k) with
  | some kv => kv.2
  | none => dflt

/-- `AdminAPIHandler.do_DELETE` (lines 266-287).  The route regex
`^/admin/tenant/(.+)$` requires a nonempty newline-free remainder (Python
`.` excludes newlines; `$` tolerates one trailing newline, which is then
excluded from the captured group). -/
def do_DELETE (A : AdminEnv) (req : Request) : HttpResponse × List Effect :=
  let pp := urlPath req.path
  let rest := pp.drop 14
  let rest' :=
    match rest.data.getLast? with
    | some c => if c == '\n' then String.mk rest.data.dropLast else rest
    | none => rest
  if pp.startsWith "/admin/tenant/" && rest' != "" && !rest'.data.contains '\n' then
    if !require_auth A req then
      ({ status := 401, body := [("error", .str "Unauthorized")] }, [])
    else
      let site_name := pyStrip (((rest'.splitOn "?").headD ""))
      if site_name == "" then
        ({ status := 400, body := [("error", .str "site_name required")] }, [])
      else if A.dbPassword == "" then
        ({ status := 500, body := [("error", .str "DB_PASSWORD not configured")] }, [])
      else
        let qs := parse_qs (urlQuery req.path)
        let no_backup := pyLower (qsGetD qs "no_backup" "true") != "false"
        let remove_frontend := pyLower (qsGetD qs "remove_frontend" "true") != "false"
        let r := admin_delete_tenant A site_name no_backup remove_frontend
        ({ status := if jTruthy (jGetD r.1 "ok" .jnull) then 200 else 400,
           body := r.1 }, r.2)
  else ({ status := 404, body := [("error", .str "Not found")] }, [])

/-! ## Facts about the embedded operations -/

/-- The suffix matcher agrees with "all but the last character in the middle
class, the last character alphanumeric". -/
theorem nameTail_eq (cs : List Char) :
    nameTail cs =
      (match cs.getLast? with
       | none => false
       | some c => isAsciiAlnum c && cs.dropLast.all isNameMid) := by
  induction cs with
  | nil => rfl
  | cons c rest ih =>
    cases rest with
    | nil => simp [nameTail]
    | cons c' rest' =>
      rw [show nameTail (c :: c' :: rest') = (isNameMid c && nameTail (c' :: rest'))
        from rfl, ih]
      rw [List.getLast?_cons_cons]
      cases h : (c' :: rest').getLast? with
      | none => simp at h
      | some d =>
        simp only [List.all_cons]
        ac_rfl

/-- The code's anchored matcher recognises exactly the language the spec
describes (strict string end, no newline slack yet). -/
theorem regexCore_eq_spec (cs : List Char) : regexCore cs = specNameMatch cs := by
  cases cs with
  | nil => rfl
  | cons c rest =>
    cases rest with
    | nil => simp [regexCore, nameTail, specNameMatch]
    | cons c' rest' =>
      cases h : (c' :: rest').getLast? with
      | none => simp at h
      | some d =>
        have h2 : (c :: c' :: rest').getLast? = some d := by
          rw [List.getLast?_cons_cons]; exact h
        simp [regexCore, nameTail_eq, specNameMatch, h, h2, List.all_cons]
        ac_rfl

/-- A list ending in a newline is never accepted by the strict matcher. -/
theorem regexCore_newline {cs : List Char} (h : cs.getLast? = some '\n') :
    regexCore cs = false := by
  cases cs with
  | nil => simp at h
  | cons c rest =>
    cases rest with
    | nil => simp [regexCore, nameTail]
    | cons c' rest' =>
      rw [List.getLast?_cons_cons] at h
      simp [regexCore, nameTail_eq, h, isAsciiAlnum]

/-- What the validation actually accepts: the spec's language, after
discounting at most one trailing newline. -/
theorem validate_eq_spec_strip (s : String) :
    validate_site_name s = specNameMatch (stripOneTrailingNewline s.data) := by
  unfold validate_site_name stripOneTrailingNewline
  cases h : s.data.getLast? with
  | none => simp [regexCore_eq_spec]
  | some c =>
    by_cases hc : c = '\n'
    · subst hc
      simp [regexCore_newline h, regexCore_eq_spec]
    · have hb : (c == '\n') = false := by
        simp [hc]
      simp [hb, regexCore_eq_spec]

/-! ## Claim theorems -/

/-- C1 counterexample: the claim says the validation accepts `s` iff `s`
matches `^[A-Za-z0-9][A-Za-z0-9.-]*[A-Za-z0-9]$` — in particular that any
string containing a character outside `[A-Za-z0-9.-]` is rejected.  The
string `"ab\n"` contains a newline, which the claim's language excludes,
yet the validation accepts it: Python's `$` also matches just before a
single trailing newline. -/
theorem C1_counterexample :
    validate_site_name "ab\n" = true ∧
      specNameMatch (String.data "ab\n") = false ∧
      isNameMid '\n' = false :=
  ⟨by decide, by decide, by decide⟩

/-- C1, amended: the identifier validation used by the create and delete
operations accepts `s` iff `s`, after discounting at most one trailing
newline, matches `^[A-Za-z0-9][A-Za-z0-9.-]*[A-Za-z0-9]$` (starts and ends
alphanumeric, interior characters alphanumeric/hyphen/period, length at
least 2); `"tenant.example.com"` and `"a.b"` are accepted while `""`,
`"a"` and `"-bad"` are rejected. -/
theorem C1_amended :
    (∀ s : String,
      validate_site_name s = specNameMatch (stripOneTrailingNewline s.data)) ∧
    validate_site_name "tenant.example.com" = true ∧
    validate_site_name "a.b" = true ∧
    validate_site_name "" = false ∧
    validate_site_name "a" = false ∧
    validate_site_name "-bad" = false :=
  ⟨validate_eq_spec_strip, by decide, by decide, by decide, by decide, by decide⟩

/-- A port configuration value the code treats as malformed: empty,
whitespace-only, or not parseable as an integer. -/
def malformedPortVal (v : String) : Prop :=
  v = "" ∨ pyStrip v = "" ∨ pyInt v = none

/-- A malformed value makes `_parse_port` fall back to its default. -/
theorem parse_port_malformed {v : String} (d : Int) (h : malformedPortVal v) :
    parse_port v d = d := by
  unfold parse_port
  rcases h with h | h | h
  · simp [h]
  · simp [h]
  · by_cases h0 : (v == "" || pyStrip v == "") = true
    · simp [h0]
    · simp [h0, h]

/-- C6: port resolution is a pure total function of identifier and
configuration (two calls with unchanged configuration agree), and a
malformed port value in any of the three port-bearing configuration
variables is ignored: resolution behaves exactly as if that variable were
unset, hence falls back to the corresponding default. -/
theorem C6_resolve_port_total_deterministic_malformed_ignored
    (env : PortEnv) (site : String) :
    resolve_tenant_port env site = resolve_tenant_port env site ∧
    (∀ v, malformedPortVal v →
      resolve_tenant_port { env with httpPublishPort := v } site =
        resolve_tenant_port { env with httpPublishPort := "" } site) ∧
    (∀ v, malformedPortVal v →
      resolve_tenant_port { env with tenant2HttpPort := v } site =
        resolve_tenant_port { env with tenant2HttpPort := "" } site) ∧
    (∀ v, malformedPortVal v →
      resolve_tenant_port { env with tenant3HttpPort := v } site =
        resolve_tenant_port { env with tenant3HttpPort := "" } site) := by
  refine ⟨rfl, ?_, ?_, ?_⟩
  · intro v hv
    unfold resolve_tenant_port
    rw [parse_port_malformed 8080 hv]
    rfl
  · intro v hv
    unfold resolve_tenant_port
    rw [parse_port_malformed 8081 hv]
    rfl
  · intro v hv
    unfold resolve_tenant_port
    rw [parse_port_malformed 8082 hv]
    rfl

/-- Witness for C6 at a concrete configuration with the malformed value
`"abc"`. -/
theorem C6_witness :
    resolve_tenant_port
        { httpPublishPort := "abc", frappeSiteNameHeader := "acme.test",
          tenant2SiteName := "", tenant2HttpPort := "", tenant3SiteName := "",
          tenant3HttpPort := "", tenantPorts := "" } "acme.test" = 8080 := by
  have h := (C6_resolve_port_total_deterministic_malformed_ignored
      { httpPublishPort := "", frappeSiteNameHeader := "acme.test",
        tenant2SiteName := "", tenant2HttpPort := "", tenant3SiteName := "",
        tenant3HttpPort := "", tenantPorts := "" } "acme.test").2.1
      "abc" (Or.inr (Or.inr (by decide)))
  calc resolve_tenant_port
        { httpPublishPort := "abc", frappeSiteNameHeader := "acme.test",
          tenant2SiteName := "", tenant2HttpPort := "", tenant3SiteName := "",
          tenant3HttpPort := "", tenantPorts := "" } "acme.test"
      = resolve_tenant_port
        { httpPublishPort := "", frappeSiteNameHeader := "acme.test",
          tenant2SiteName := "", tenant2HttpPort := "", tenant3SiteName := "",
          tenant3HttpPort := "", tenantPorts := "" } "acme.test" := h
    _ = 8080 := by decide

/-- C7: with the Docker SDK importable and the runtime client reachable,
detaching a tenant whose derived frontend container does not exist returns
the successful no-op `{ok: true, removed: false}` with no container
operations, never an error. -/
theorem C7_detach_missing_is_noop (st : DockerState) (site : String)
    (hsdk : st.sdkAvailable = true) (hconn : st.connectOk = true)
    (hnone : st.containers.find? (fun c => c.name == frontendServiceName site) = none) :
    remove_frontend_for_tenant st site =
      ([("ok", .jbool true), ("removed", .jbool false)], []) := by
  unfold remove_frontend_for_tenant
  simp [hsdk, hconn, hnone]

/-- Witness for C7: an empty container runtime. -/
theorem C7_witness :
    remove_frontend_for_tenant
        { sdkAvailable := true, connectOk := true, connectErr := "",
          containers := [], networks := [], runOutcome := .created "x",
          stopRemoveErr := none } "ghost.tenant" =
      ([("ok", .jbool true), ("removed", .jbool false)], []) :=
  C7_detach_missing_is_noop _ _ rfl rfl rfl

/-- C9: whenever the credential-issuance step is reached (site creation and
application install both succeeded), the deletion of the temporary
credential file is performed before `create_tenant` returns, on every
combination of issuance outcomes (command exit code, file existence, read
error, parse error, parsed content) and frontend options. -/
theorem C9_tmp_file_always_unlinked (env : TenantCreateEnv) (penv : PortEnv)
    (site pw dbpw : String) (port : Option Int) (cf : Bool)
    (h1 : env.newSite.returncode = 0) (h2 : env.installApp.returncode = 0) :
    Effect.fsUnlink env.tmpFileName ∈
      (tenant_utils_create_tenant env penv site pw dbpw port cf).2 := by
  unfold tenant_utils_create_tenant
  simp only [h1, h2]
  by_cases hfr : (cf && (match port with
      | some p => p
      | none => resolve_tenant_port penv site) != 0) = true
  · simp [hfr]
  · simp [hfr]

/-- A successful process outcome, shared by the concrete witnesses. -/
def sampleOkProc : ProcResult := { returncode := 0, stdout := "", stderr := "" }

/-- An empty container runtime, shared by the concrete witnesses. -/
def sampleDockerState : DockerState :=
  { sdkAvailable := true, connectOk := true, connectErr := "",
    containers := [], networks := [], runOutcome := .created "cid-new",
    stopRemoveErr := none }

/-- Frontend environment with every variable unset, shared by witnesses. -/
def sampleFrontendEnv : FrontendEnv :=
  { frontendImage := none, dockerNetwork := none, dockerSitesVolume := none }

/-- Port configuration with every variable unset, shared by witnesses. -/
def samplePortEnv : PortEnv :=
  { httpPublishPort := "", frappeSiteNameHeader := "", tenant2SiteName := "",
    tenant2HttpPort := "", tenant3SiteName := "", tenant3HttpPort := "",
    tenantPorts := "" }

/-- A creation-environment oracle in which both site operations succeed but
the key-generation command leaves no readable temporary file. -/
def sampleCreateEnvNoKeys : TenantCreateEnv :=
  { newSite := sampleOkProc, installApp := sampleOkProc, genKeys := sampleOkProc,
    tmpExists := false, tmpOutcome := .parseError,
    tmpFileName := "/tmp/api_keys_0123abcd.json",
    frontendEnv := sampleFrontendEnv, dockerState := sampleDockerState }

/-- Witness for C9: on a concrete successful run the unlink of the
temporary credential file appears in the trace. -/
theorem C9_witness :
    Effect.fsUnlink "/tmp/api_keys_0123abcd.json" ∈
      (tenant_utils_create_tenant sampleCreateEnvNoKeys samplePortEnv
        "acme.test" "pw" "dbpw" none false).2 :=
  C9_tmp_file_always_unlinked sampleCreateEnvNoKeys samplePortEnv
    "acme.test" "pw" "dbpw" none false rfl rfl

/-- C10: calling the module-level `tenant_utils.create_tenant` directly with
`create_frontend` true and port 0 (whose resolved value is falsy), with both
external site operations succeeding, silently skips frontend creation: the
result is `ok` true with `frontend_created` false, and the trace holds no
container operation; the up-front port-range rejection exists only in the
HTTP-layer wrapper `admin_api.create_tenant`, which rejects port 0 outright
with the port-requirement error and performs no external operation. -/
theorem C10_port_zero_silently_skips_frontend :
    (∀ (env : TenantCreateEnv) (penv : PortEnv) (site pw dbpw : String),
      env.newSite.returncode = 0 → env.installApp.returncode = 0 →
      jGet (tenant_utils_create_tenant env penv site pw dbpw (some 0) true).1 "ok" =
          some (.jbool true) ∧
        jGet (tenant_utils_create_tenant env penv site pw dbpw (some 0) true).1
            "frontend_created" = some (.jbool false) ∧
        (tenant_utils_create_tenant env penv site pw dbpw (some 0) true).2 =
          [Effect.benchNewSite site, Effect.benchInstallApp site,
           Effect.benchExecute site, Effect.fsUnlink env.tmpFileName]) ∧
    (∀ (A : AdminEnv) (site pw : String),
      validate_site_name site = true → A.dbPassword ≠ "" →
      admin_create_tenant A site pw (some 0) true =
        (errObj "port required and must be 1-65535 when create_frontend is true", [])) := by
  constructor
  · intro env penv site pw dbpw h1 h2
    unfold tenant_utils_create_tenant
    simp only [h1, h2]
    refine ⟨?_, ?_, ?_⟩ <;> simp [jGet]
  · intro A site pw hv hdb
    unfold admin_create_tenant
    simp [hv, hdb]

/-- A concrete admin configuration, shared by the witnesses. -/
def sampleAdminEnv : AdminEnv :=
  { adminApiKey := "sekrit", dbPassword := "dbpw", tenantUtilsAvailable := true,
    tenantCreateEnv := sampleCreateEnvNoKeys, portEnv := samplePortEnv,
    shellScriptExists := false, shellResult := sampleOkProc,
    parseJson := fun _ => none, dropSite := sampleOkProc,
    listDirResult := .ok [], isTenantDir := fun _ => false,
    dockerState := sampleDockerState }

/-- Witness for C10 at concrete oracles. -/
theorem C10_witness :
    (jGet (tenant_utils_create_tenant sampleCreateEnvNoKeys samplePortEnv
        "acme.test" "pw" "dbpw" (some 0) true).1 "ok" = some (.jbool true) ∧
      jGet (tenant_utils_create_tenant sampleCreateEnvNoKeys samplePortEnv
        "acme.test" "pw" "dbpw" (some 0) true).1 "frontend_created" =
          some (.jbool false) ∧
      (tenant_utils_create_tenant sampleCreateEnvNoKeys samplePortEnv
        "acme.test" "pw" "dbpw" (some 0) true).2 =
        [Effect.benchNewSite "acme.test", Effect.benchInstallApp "acme.test",
         Effect.benchExecute "acme.test",
         Effect.fsUnlink "/tmp/api_keys_0123abcd.json"]) ∧
    admin_create_tenant sampleAdminEnv "acme.test" "pw" (some 0) true =
      (errObj "port required and must be 1-65535 when create_frontend is true", []) :=
  ⟨C10_port_zero_silently_skips_frontend.1 sampleCreateEnvNoKeys samplePortEnv
      "acme.test" "pw" "dbpw" rfl rfl,
   C10_port_zero_silently_skips_frontend.2 sampleAdminEnv "acme.test" "pw"
      (by decide) (by decide)⟩

/-- C4: when site creation and application install succeed but API-key
issuance fails in any of the claimed ways (key-generation command exits
nonzero, temporary file missing, unreadable, or holding malformed JSON),
creation without a frontend request still returns `ok` true, with empty
`api_key` and `api_secret` strings and a null composed token in the
returned credentials. -/
theorem C4_issuance_failure_degrades_to_empty_credentials
    (env : TenantCreateEnv) (penv : PortEnv) (site pw dbpw : String)
    (port : Option Int)
    (h1 : env.newSite.returncode = 0) (h2 : env.installApp.returncode = 0)
    (hfail : env.genKeys.returncode ≠ 0 ∨ env.tmpExists = false ∨
      env.tmpOutcome = .readError ∨ env.tmpOutcome = .parseError) :
    jGet (tenant_utils_create_tenant env penv site pw dbpw port false).1 "ok" =
        some (.jbool true) ∧
      jGet (tenant_utils_create_tenant env penv site pw dbpw port false).1
          "credentials" =
        some (.jobj
          [("username", .str "Administrator"), ("password", .str pw),
           ("api_key", .str ""), ("api_secret", .str ""),
           ("token", .jnull)]) := by
  unfold tenant_utils_create_tenant
  simp only [h1, h2]
  have hkeys : (if env.genKeys.returncode = 0 ∧ env.tmpExists = true then
      match env.tmpOutcome with
      | TmpOutcome.parsed d => (sGetD d "api_key" "", sGetD d "api_secret" "")
      | _ => ("", "")
    else ("", "")) = ("", "") := by
    rcases hfail with h | h | h | h
    · simp [h]
    · simp [h]
    · simp [h]
    · simp [h]
  constructor <;> simp [hkeys, jGet]

/-- Witness for C4: concrete run where the temporary file is missing. -/
theorem C4_witness :
    jGet (tenant_utils_create_tenant sampleCreateEnvNoKeys samplePortEnv
        "acme.test" "pw" "dbpw" none false).1 "ok" = some (.jbool true) ∧
      jGet (tenant_utils_create_tenant sampleCreateEnvNoKeys samplePortEnv
          "acme.test" "pw" "dbpw" none false).1 "credentials" =
        some (.jobj
          [("username", .str "Administrator"), ("password", .str "pw"),
           ("api_key", .str ""), ("api_secret", .str ""),
           ("token", .jnull)]) :=
  C4_issuance_failure_degrades_to_empty_credentials sampleCreateEnvNoKeys
    samplePortEnv "acme.test" "pw" "dbpw" none rfl rfl (Or.inr (Or.inl rfl))

/-- C5: a create request with `create_frontend` true and a missing or
out-of-range port (outside 1–65535) is rejected up front with the
port-requirement error, before any external provisioning operation (the
effect trace is empty), provided the request passed the earlier name and
configuration checks. -/
theorem C5_frontend_requires_port_up_front
    (A : AdminEnv) (site pw : String) (port : Option Int)
    (hv : validate_site_name site = true) (hdb : A.dbPassword ≠ "")
    (hbad : port = none ∨ ∃ p, port = some p ∧ (p < 1 ∨ 65535 < p)) :
    admin_create_tenant A site pw port true =
      (errObj "port required and must be 1-65535 when create_frontend is true", []) := by
  unfold admin_create_tenant
  rcases hbad with h | ⟨p, hp, hr⟩
  · subst h
    simp [hv, hdb]
  · subst hp
    rcases hr with h | h
    · simp [hv, hdb, h]
    · simp [hv, hdb, h]

/-- Witness for C5: missing port with `create_frontend` true. -/
theorem C5_witness :
    admin_create_tenant sampleAdminEnv "acme.test" "pw" none true =
      (errObj "port required and must be 1-65535 when create_frontend is true", []) :=
  C5_frontend_requires_port_up_front sampleAdminEnv "acme.test" "pw" none
    (by decide) (by decide) (Or.inl rfl)

/-- The running reference ("backend") container of the C2 scenario. -/
def c2Backend : ContainerInfo :=
  { name := "backend", cid := "backend-id", status := "running", hostPorts := [],
    composeService := some "backend", networks := ["frappe_net"] }

/-- The frontend container a prior successful attach for `"acme.test"` on
port 8085 leaves behind: it carries the computed service name, is running,
and publishes host port 8085 in its port bindings. -/
def c2Frontend : ContainerInfo :=
  { name := "frontend-tenant-acme-test", cid := "frontend-id",
    status := "running", hostPorts := [8085], composeService := none,
    networks := ["frappe_net"] }

/-- The container-runtime world after a first successful attach. -/
def c2State : DockerState :=
  { sdkAvailable := true, connectOk := true, connectErr := "",
    containers := [c2Backend, c2Frontend], networks := ["frappe_net"],
    runOutcome := .created "dup-id", stopRemoveErr := none }

/-- C2 evaluated on the state a first attach produces: the frontend
container with the computed service name exists and is running, yet a
second attach with the same identifier and port does not return success
with its identity — the port-in-use scan (which runs before the
existing-container check and sees the existing frontend's own binding)
rejects the call.  The idempotent-re-attach branch of the code is
unreachable for a same-port re-attach. -/
theorem C2_same_port_reattach_rejected :
    c2State.containers.find?
        (fun c => c.name == frontendServiceName "acme.test") = some c2Frontend ∧
    c2Frontend.status = "running" ∧
    create_frontend_for_tenant sampleFrontendEnv c2State "acme.test" 8085 =
      (errObj ("Port 8085 is already in use by container " ++
        "'frontend-tenant-acme-test'. Please use a different port."), []) :=
  ⟨rfl, rfl, rfl⟩

/-- The 301-character diagnostic text of the C3 counterexample. -/
def c3LongText : String := String.mk (List.replicate 301 'x')

/-- Admin configuration whose drop-site command fails with the long text. -/
def c3Env : AdminEnv :=
  { sampleAdminEnv with
    dropSite := { returncode := 1, stdout := "", stderr := c3LongText } }

/-- C3 counterexample: when the drop-site command exits nonzero, the delete
operation surfaces the command's 301-character error text in full — longer
than the claimed 300-character cap. -/
theorem C3_counterexample :
    (admin_delete_tenant c3Env "acme.test" true false).1 = errObj c3LongText ∧
      300 < c3LongText.length := by
  constructor
  · rfl
  · have h : c3LongText.length = 301 := by
      show (List.replicate 301 'x').length = 301
      rw [List.length_replicate]
    rw [h]
    norm_num

/-- The error text a failed shell-fallback creation surfaces is capped. -/
theorem cap300_length_le (s : String) :
    (if s.length > 300 then String.mk (s.data.take 300) else s).length ≤ 300 := by
  by_cases h : s.length > 300
  · rw [if_pos h]
    show (s.data.take 300).length ≤ 300
    rw [List.length_take]
    omega
  · rw [if_neg h]
    omega

/-- C3, amended: the ≈300-character cap applies only to the create
operation's shell-fallback diagnostics; the delete operation surfaces the
drop-site command's error text (stderr, else stdout, else a fixed message)
uncapped. -/
theorem C3_amended :
    (∀ (A : AdminEnv) (site : String) (nb rf : Bool),
      validate_site_name site = true → A.dropSite.returncode ≠ 0 →
      (admin_delete_tenant A site nb rf).1 =
        errObj (pyOrStr A.dropSite.stderr (pyOrStr A.dropSite.stdout "drop-site failed"))) ∧
    (∀ (A : AdminEnv) (site pw : String),
      validate_site_name site = true → A.dbPassword ≠ "" →
      A.tenantUtilsAvailable = false → A.shellScriptExists = true →
      A.shellResult.returncode ≠ 0 →
      admin_create_tenant A site pw none false =
          (errObj (fallbackErrorText A.shellResult), [Effect.runShellScript site]) ∧
        (fallbackErrorText A.shellResult).length ≤ 300) := by
  constructor
  · intro A site nb rf hv hrc
    unfold admin_delete_tenant
    simp [hv, hrc]
  · intro A site pw hv hdb hu hs hrc
    constructor
    · unfold admin_create_tenant
      simp [hv, hdb, hu, hs, hrc]
    · unfold fallbackErrorText
      exact cap300_length_le _

/-- Delete configuration whose drop-site command fails with a short text. -/
def c3DeleteEnv : AdminEnv :=
  { sampleAdminEnv with
    dropSite := { returncode := 1, stdout := "", stderr := "boom" } }

/-- Fallback-path configuration whose creation script fails. -/
def c3FallbackEnv : AdminEnv :=
  { sampleAdminEnv with
    tenantUtilsAvailable := false, shellScriptExists := true,
    shellResult := { returncode := 1, stdout := "", stderr := "bad exit" } }

/-- Witness for C3 (amended) at concrete oracles. -/
theorem C3_amended_witness :
    (admin_delete_tenant c3DeleteEnv "acme.test" true false).1 =
      errObj (pyOrStr c3DeleteEnv.dropSite.stderr
        (pyOrStr c3DeleteEnv.dropSite.stdout "drop-site failed")) ∧
    (admin_create_tenant c3FallbackEnv "acme.test" "pw" none false =
        (errObj (fallbackErrorText c3FallbackEnv.shellResult),
          [Effect.runShellScript "acme.test"]) ∧
      (fallbackErrorText c3FallbackEnv.shellResult).length ≤ 300) :=
  ⟨C3_amended.1 c3DeleteEnv "acme.test" true false (by decide) (by decide),
   C3_amended.2 c3FallbackEnv "acme.test" "pw" (by decide) (by decide) rfl rfl
     (by decide)⟩

/-- C8: requests to the authenticated endpoints that are unauthenticated
(missing or wrong key) are answered 401, and malformed create requests
(missing or undecodable JSON body, or missing `site_name` or
`admin_password`) are answered 400, in every case with an empty effect
trace: no provisioning command, container operation or filesystem
enumeration is performed.  (An unauthenticated delete whose path does not
match the route is answered 404, likewise with no effects.) -/
theorem C8_auth_and_validation_precede_effects (A : AdminEnv) (req : Request) :
    (require_auth A req = false → req.path = "/admin/tenant" →
      do_GET A req =
          ({ status := 401, body := [("error", .str "Unauthorized")] }, []) ∧
        do_POST A req =
          ({ status := 401, body := [("error", .str "Unauthorized")] }, [])) ∧
    (require_auth A req = false →
      (do_DELETE A req).2 = [] ∧
        ((do_DELETE A req).1.status = 401 ∨ (do_DELETE A req).1.status = 404)) ∧
    (req.path = "/admin/tenant" → require_auth A req = true →
      (read_json_body A req = none ∨ read_json_body A req = some []) →
      do_POST A req =
        ({ status := 400, body := [("error", .str "JSON body required")] }, [])) ∧
    (∀ b : JObj, req.path = "/admin/tenant" → require_auth A req = true →
      read_json_body A req = some b → b ≠ [] →
      (pyStrip (jStrOrEmpty (jGet b "site_name")) = "" ∨
        jStrOrEmpty (jGet b "admin_password") = "") →
      do_POST A req =
        ({ status := 400,
           body := [("error", .str "site_name and admin_password required")] }, [])) := by
  refine ⟨?_, ?_, ?_, ?_⟩
  · intro hauth hpath
    constructor
    · unfold do_GET
      have : ¬ (req.path == "/" || req.path == "/health" ||
          req.path == "/admin/health") = true := by
        simp [hpath]
      simp [hpath, hauth]
    · unfold do_POST
      simp [hpath, hauth]
  · intro hauth
    unfold do_DELETE
    simp [hauth]
    split
    · exact ⟨rfl, Or.inl rfl⟩
    · exact ⟨rfl, Or.inr rfl⟩
  · intro hpath hauth hbody
    unfold do_POST
    rcases hbody with h | h
    · simp [hpath, hauth, h]
    · simp [hpath, hauth, h]
  · intro b hpath hauth hbody hne hmiss
    unfold do_POST
    rcases hmiss with h | h
    · simp [hpath, hauth, hbody, hne, h]
    · simp [hpath, hauth, hbody, hne, h]

/-- An unauthenticated request to the tenant collection endpoint. -/
def c8ReqNoAuth : Request :=
  { path := "/admin/tenant", xAdminApiKey := none, authorization := none,
    contentLength := 0, body := "" }

/-- An unauthenticated delete request. -/
def c8ReqDeleteNoAuth : Request :=
  { path := "/admin/tenant/acme.test", xAdminApiKey := none,
    authorization := none, contentLength := 0, body := "" }

/-- An authenticated create request with no body. -/
def c8ReqAuthNoBody : Request :=
  { path := "/admin/tenant", xAdminApiKey := some "sekrit",
    authorization := none, contentLength := 0, body := "" }

/-- An authenticated create request whose body decodes to an object lacking
`admin_password`. -/
def c8ReqAuthPartialBody : Request :=
  { path := "/admin/tenant", xAdminApiKey := some "sekrit",
    authorization := none, contentLength := 10, body := "partial" }

/-- Admin configuration whose JSON parser yields the partial body. -/
def c8PartialBodyEnv : AdminEnv :=
  { sampleAdminEnv with
    parseJson := fun _ => some [("site_name", .str "acme.test")] }

/-- Witness for C8 at concrete requests. -/
theorem C8_witness :
    (do_GET sampleAdminEnv c8ReqNoAuth =
        ({ status := 401, body := [("error", .str "Unauthorized")] }, []) ∧
      do_POST sampleAdminEnv c8ReqNoAuth =
        ({ status := 401, body := [("error", .str "Unauthorized")] }, [])) ∧
    ((do_DELETE sampleAdminEnv c8ReqDeleteNoAuth).2 = [] ∧
      ((do_DELETE sampleAdminEnv c8ReqDeleteNoAuth).1.status = 401 ∨
        (do_DELETE sampleAdminEnv c8ReqDeleteNoAuth).1.status = 404)) ∧
    do_POST sampleAdminEnv c8ReqAuthNoBody =
      ({ status := 400, body := [("error", .str "JSON body required")] }, []) ∧
    do_POST c8PartialBodyEnv c8ReqAuthPartialBody =
      ({ status := 400,
         body := [("error", .str "site_name and admin_password required")] }, []) :=
  ⟨(C8_auth_and_validation_precede_effects sampleAdminEnv c8ReqNoAuth).1 rfl rfl,
   (C8_auth_and_validation_precede_effects sampleAdminEnv c8ReqDeleteNoAuth).2.1 rfl,
   (C8_auth_and_validation_precede_effects sampleAdminEnv c8ReqAuthNoBody).2.2.1
     rfl rfl (Or.inl rfl),
   (C8_auth_and_validation_precede_effects c8PartialBodyEnv c8ReqAuthPartialBody).2.2.2
     [("site_name", .str "acme.test")] rfl rfl rfl (List.cons_ne_nil _ _)
     (Or.inr rfl)⟩
